import Mathlib

/-!
Verification development for the debt negotiation and settlement engine of
api-consulta-v2.

The Python sources are shallowly embedded:

* `Money` (src/domain/value_objects/money.py) — decimal amounts become `ℚ`;
  `Decimal.quantize(Decimal("0.01"), ROUND_HALF_UP)` becomes `round2`;
  `raise ValueError` becomes `Except.error` with a dedicated error kind.
* `CPF` (src/domain/value_objects/cpf.py) and the separate module-level
  `validate_cpf` in src/main.py.
* The Mongo-backed endpoints `gerar_boleto` and `cancelar_boleto`
  (src/main.py) — the document store becomes an explicit `DB` record, the
  endpoints become functions `DB → … → DB × Except err resp` that thread the
  store state; each Mongo read/write is translated in program order.
  ObjectIds are opaque (`OId := ℕ`); datetimes are days as `Int`;
  random identifier generation (`numero_boleto`, `linha_digitavel`,
  `codigo_barras`, `banco`, `agencia`, `conta`) is not modelled because no
  claim mentions those fields; timestamps other than `data_vencimento` and
  `data_cancelamento` are likewise omitted.
* The domain entity `Boleto.validar` (src/domain/entities/boleto.py) and
  `GerarBoletoUseCase.execute`
  (src/application/use_cases/boleto/gerar_boleto.py), including a model of
  Python attribute lookup, since two claims hinge on `AttributeError`.
-/

namespace ApiConsultaV2

/-- Round half-up to 2 fractional digits, the rounding performed by
`Decimal.quantize(Decimal("0.01"), rounding=ROUND_HALF_UP)` in money.py and by
`round(x, 2)` on the (nonnegative) amounts of main.py.  Written with
`Rat.floor` so that it evaluates by kernel reduction. -/
def round2 (q : ℚ) : ℚ := (((q * 100 + 1/2).floor : ℤ) : ℚ) / 100

/-- Python `int(q)` on a float/Decimal: truncation toward zero. -/
def py_int (q : ℚ) : ℤ := if q < 0 then -((-q).floor) else q.floor

theorem rat_floor_coe (q : ℚ) : q.floor = ⌊q⌋ :=
  (Rat.floor_def' q).trans Rat.floor_def.symm

theorem round2_eq (q : ℚ) : round2 q = ((⌊q * 100 + 1/2⌋ : ℤ) : ℚ) / 100 := by
  rw [round2, rat_floor_coe]

theorem round2_cast_int (n : ℤ) : round2 ((n : ℚ) / 100) = (n : ℚ) / 100 := by
  rw [round2_eq]
  rw [div_mul_cancel₀ (b := (100 : ℚ)) (a := (n : ℚ)) (by norm_num)]
  rw [show ((n : ℚ) + 1/2) = ((1 : ℚ)/2 + (n : ℤ)) by ring]
  rw [Int.floor_add_int]
  norm_num

theorem round2_idem (q : ℚ) : round2 (round2 q) = round2 q := round2_cast_int _

theorem round2_mono {q r : ℚ} (h : q ≤ r) : round2 q ≤ round2 r := by
  rw [round2_eq, round2_eq]
  have : (⌊q * 100 + 1/2⌋ : ℤ) ≤ ⌊r * 100 + 1/2⌋ := by
    apply Int.floor_le_floor
    nlinarith
  have h100 : (0:ℚ) < 100 := by norm_num
  rw [div_le_div_iff_of_pos_right h100]
  exact_mod_cast this

theorem round2_nonneg {q : ℚ} (h : 0 ≤ q) : 0 ≤ round2 q := by
  have h0 : round2 0 = 0 := by
    have := round2_cast_int 0
    simpa using this
  calc (0:ℚ) = round2 0 := h0.symm
    _ ≤ round2 q := round2_mono h

theorem round2_fifty : round2 50 = 50 := by
  have := round2_cast_int 5000
  norm_num at this
  simpa using this

theorem round2_ge_fifty {q : ℚ} (h : 50 ≤ q) : 50 ≤ round2 q := by
  calc (50:ℚ) = round2 50 := round2_fifty.symm
    _ ≤ round2 q := round2_mono h

theorem round2_close (q : ℚ) : |round2 q - q| ≤ 1/200 := by
  rw [round2_eq]
  have h1 : (⌊q * 100 + 1/2⌋ : ℚ) ≤ q * 100 + 1/2 := Int.floor_le _
  have h2 : q * 100 + 1/2 < (⌊q * 100 + 1/2⌋ : ℚ) + 1 := Int.lt_floor_add_one _
  rw [abs_le]
  constructor <;> [linarith; linarith]

theorem py_int_of_nonneg {q : ℚ} (h : 0 ≤ q) : py_int q = ⌊q⌋ := by
  unfold py_int
  rw [if_neg (not_lt.mpr h), rat_floor_coe]

/-! ### Money (src/domain/value_objects/money.py)

`Money.__post_init__` rejects negative amounts and then rounds to 2 decimals
half-up; each arithmetic operation returns a new instance through the
constructor.  Raised `ValueError`s become `MoneyErr` kinds. -/

inductive MoneyErr
  | negativeAmount
  | currencyMismatch
  | negativeResult
  | divisionByZero
  deriving DecidableEq, Repr

structure Money where
  valor : ℚ
  moeda : String
  deriving DecidableEq, Repr

/-- The `Money(...)` constructor with `__post_init__`: reject `valor < 0`,
then round half-up to 2 decimals. -/
def money_mk (v : ℚ) (c : String) : Except MoneyErr Money :=
  if v < 0 then .error .negativeAmount else .ok ⟨round2 v, c⟩

/-- `Money.somar`. -/
def Money.somar (m o : Money) : Except MoneyErr Money :=
  if m.moeda ≠ o.moeda then .error .currencyMismatch
  else money_mk (m.valor + o.valor) m.moeda

/-- `Money.subtrair`. -/
def Money.subtrair (m o : Money) : Except MoneyErr Money :=
  if m.moeda ≠ o.moeda then .error .currencyMismatch
  else if m.valor - o.valor < 0 then .error .negativeResult
  else money_mk (m.valor - o.valor) m.moeda

/-- `Money.multiplicar`. -/
def Money.multiplicar (m : Money) (fator : ℚ) : Except MoneyErr Money :=
  money_mk (m.valor * fator) m.moeda

/-- `Money.dividir`. -/
def Money.dividir (m : Money) (divisor : ℚ) : Except MoneyErr Money :=
  if divisor = 0 then .error .divisionByZero
  else money_mk (m.valor / divisor) m.moeda

/-- `Money.__lt__`. -/
def Money.menor (m o : Money) : Except MoneyErr Bool :=
  if m.moeda ≠ o.moeda then .error .currencyMismatch
  else .ok (decide (m.valor < o.valor))

/-- `Money.__le__`. -/
def Money.menorIgual (m o : Money) : Except MoneyErr Bool :=
  if m.moeda ≠ o.moeda then .error .currencyMismatch
  else .ok (decide (m.valor ≤ o.valor))

/-- `Money.__gt__`. -/
def Money.maior (m o : Money) : Except MoneyErr Bool :=
  if m.moeda ≠ o.moeda then .error .currencyMismatch
  else .ok (decide (o.valor < m.valor))

/-- `Money.__ge__`. -/
def Money.maiorIgual (m o : Money) : Except MoneyErr Bool :=
  if m.moeda ≠ o.moeda then .error .currencyMismatch
  else .ok (decide (o.valor ≤ m.valor))

/-- `Money.__eq__`: returns a plain boolean; it does NOT raise on a currency
mismatch (it returns `False`, also for non-Money arguments). -/
def Money.igual (m o : Money) : Bool :=
  decide (m.valor = o.valor) && decide (m.moeda = o.moeda)

/-- The class invariant of `Money`: nonnegative and exactly representable in
2 fractional digits (fixed point of `round2`). -/
def MoneyWF (m : Money) : Prop := 0 ≤ m.valor ∧ round2 m.valor = m.valor

/-! ### Python exceptions

Both value-object modules raise `ValueError`; a lookup of a missing attribute
raises `AttributeError`; the boleto use case wraps unexpected exceptions in
`RuntimeError`. -/

inductive PyExn
  | valueError (msg : String)
  | attributeError (msg : String)
  | runtimeError (msg : String)
  deriving DecidableEq, Repr

/-! ### CPF (src/domain/value_objects/cpf.py)

`CPF._validar` strips non-digit characters, requires 11 digits, rejects
all-equal sequences and checks the two verification digits. -/

/-- `re.sub(r"[^0-9]", "", s)` followed by per-character `int(...)`. -/
def cpf_digits (s : String) : List ℕ :=
  (s.toList.filter Char.isDigit).map (fun c => c.toNat - 48)

/-- `re.sub(r'[^\d]', '', cpf)` in main.py (`normalize_cpf`). -/
def normalize_cpf (s : String) : String :=
  String.mk (s.toList.filter Char.isDigit)

/-- `cpf == cpf[0] * 11` (on an already length-checked digit list). -/
def cpf_all_equal (ds : List ℕ) : Bool :=
  ds.all (fun d => d == ds.headD 0)

/-- `soma = sum(int(cpf[i]) * (10 - i) for i in range(9))`. -/
def cpf_soma1 (ds : List ℕ) : ℕ :=
  ((List.range 9).map (fun i => ds.getD i 0 * (10 - i))).sum

/-- `soma = sum(int(cpf[i]) * (11 - i) for i in range(10))`. -/
def cpf_soma2 (ds : List ℕ) : ℕ :=
  ((List.range 10).map (fun i => ds.getD i 0 * (11 - i))).sum

/-- `resto = soma % 11; digito = 0 if resto < 2 else 11 - resto` (cpf.py). -/
def cpf_digito (soma : ℕ) : ℕ :=
  if soma % 11 < 2 then 0 else 11 - soma % 11

/-- The body of `CPF._validar` on the stripped digit list. -/
def cpf_validar_digits (ds : List ℕ) : Bool :=
  ds.length == 11
    && !cpf_all_equal ds
    && ds.getD 9 0 == cpf_digito (cpf_soma1 ds)
    && ds.getD 10 0 == cpf_digito (cpf_soma2 ds)

/-- `CPF._validar` on the raw string. -/
def cpf_validar (s : String) : Bool := cpf_validar_digits (cpf_digits s)

structure CPF where
  valor : String
  deriving DecidableEq, Repr

/-- The `CPF(...)` constructor: `__post_init__` raises `ValueError` unless
`_validar` succeeds. -/
def cpf_create (s : String) : Except PyExn CPF :=
  if cpf_validar s then .ok ⟨s⟩ else .error (.valueError "CPF inválido")

/-- `CPF.from_string`: rejects the empty value, then constructs. -/
def cpf_from_string (s : String) : Except PyExn CPF :=
  if s = "" then .error (.valueError "CPF não pode ser vazio")
  else cpf_create s

/-- The attribute names the `CPF` class defines (methods and the dataclass
field); there is no `criar`. -/
def cpfClassAttrs : List String :=
  ["valor", "_validar", "formatado", "mascarado", "limpo", "from_string"]

/-- The module-level `validate_cpf` of cpf.py: evaluates `CPF.criar(cpf)` and
catches only `ValueError`.  The attribute lookup `CPF.criar` is modelled
first: when the class lacks the attribute the call raises `AttributeError`
before any constructor logic runs (the then-branch models the construction
the call would perform if the attribute existed). -/
def vo_validate_cpf (cpf : String) : Except PyExn Bool :=
  if cpfClassAttrs.contains "criar" then
    match cpf_create cpf with
    | .ok _ => .ok true
    | .error (.valueError _) => .ok false
    | .error e => .error e
  else .error (.attributeError "criar")

/-- The digit computed in main.py's own `validate_cpf`
(`resto = 11 - (soma % 11); digito = 0 if resto >= 10 else resto`). -/
def main_digito (soma : ℕ) : ℕ :=
  let resto := 11 - soma % 11
  if 10 ≤ resto then 0 else resto

/-- The module-level `validate_cpf` defined in src/main.py (the one the
endpoints call).  It is a plain boolean function and raises nothing. -/
def validate_cpf (s : String) : Bool :=
  let ds := cpf_digits s
  ds.length == 11
    && !cpf_all_equal ds
    && ds.getD 9 0 == main_digito (cpf_soma1 ds)
    && ds.getD 10 0 == main_digito (cpf_soma2 ds)

/-- Modelled from the spec: weighted sum with "weights 10..2 for the first
check digit over the first 9 digits". -/
def spec_peso1 (ds : List ℕ) : ℕ :=
  (List.zipWith (· * ·) (ds.take 9) [10, 9, 8, 7, 6, 5, 4, 3, 2]).sum

/-- Modelled from the spec: weighted sum with "weights 11..2 for the second
check digit over the first 10 digits". -/
def spec_peso2 (ds : List ℕ) : ℕ :=
  (List.zipWith (· * ·) (ds.take 10) [11, 10, 9, 8, 7, 6, 5, 4, 3, 2]).sum

/-- Modelled from the spec: the "remainder-11 rule, with remainder < 2 mapping
to 0". -/
def spec_digito (soma : ℕ) : ℕ :=
  if soma % 11 < 2 then 0 else 11 - soma % 11

/-- Modelled from the spec: acceptance condition for an 11-digit sequence as
worded in the spec — digits not all equal, and the two check digits match the
weighted-sum remainder-11 algorithm. -/
def cpf_spec_accepts (ds : List ℕ) : Prop :=
  ¬ (∀ d ∈ ds, d = ds.headD 0)
    ∧ ds.getD 9 0 = spec_digito (spec_peso1 ds)
    ∧ ds.getD 10 0 = spec_digito (spec_peso2 ds)

/-! ### Boleto entity (src/domain/entities/boleto.py) and
GerarBoletoUseCase (src/application/use_cases/boleto/gerar_boleto.py) -/

/-- Numeric attribute lookup on a `Money` instance.  The dataclass declares
exactly the fields `valor` (the numeric amount) and `moeda`; any other
attribute name raises `AttributeError`.  `Boleto.validar` requests the
attribute `amount`, which does not exist. -/
def money_getattr_num (m : Money) (a : String) : Except PyExn ℚ :=
  if a = "valor" then .ok m.valor else .error (.attributeError a)

structure BoletoEnt where
  cliente_id : String
  valor : Money
  descricao : String
  data_emissao : Int
  data_vencimento : Int
  linha_digitavel : String
  codigo_barras : String
  status : String
  deriving DecidableEq, Repr

def statusValidosBoleto : List String := ["ativo", "pago", "vencido", "cancelado"]

/-- `Boleto.validar`, translated check by check.  The `isinstance(self.valor,
Money)` test holds by typing in this model; the two `if not self.data_*`
truthiness tests cannot fire on `Int`-modelled datetimes and are omitted.
The amount check reads `self.valor.amount`, an attribute lookup. -/
def boleto_validar (b : BoletoEnt) : Except PyExn Unit :=
  if b.cliente_id = "" then .error (.valueError "ID do cliente é obrigatório")
  else
    match money_getattr_num b.valor "amount" with
    | .error e => .error e
    | .ok amount =>
      if amount ≤ 0 then .error (.valueError "Valor deve ser positivo")
      else if b.descricao = "" then .error (.valueError "Descrição é obrigatória")
      else if b.data_vencimento ≤ b.data_emissao then
        .error (.valueError "Data de vencimento deve ser posterior à emissão")
      else if b.linha_digitavel = "" then .error (.valueError "Linha digitável é obrigatória")
      else if b.codigo_barras = "" then .error (.valueError "Código de barras é obrigatório")
      else if b.status = "" then .error (.valueError "Status é obrigatório")
      else if !(statusValidosBoleto.contains b.status) then
        .error (.valueError "Status inválido")
      else .ok ()

structure GerarBoletoRequestDTO where
  valor : ℚ
  cliente_id : String
  descricao : String
  dias_vencimento : Option Int
  deriving DecidableEq, Repr

structure GerarBoletoResponseDTO where
  boleto_id : String
  valor : ℚ
  status : String
  deriving DecidableEq, Repr

/-- The try-block body of `GerarBoletoUseCase.execute`.  The client repository
is modelled as the list of existing client ids; `linha`, `cb` and `novo_id`
stand for the generated identifier strings and the id assigned on save. -/
def usecase_execute_body (clientes : List String) (req : GerarBoletoRequestDTO)
    (now : Int) (linha cb novo_id : String) : Except PyExn GerarBoletoResponseDTO :=
  if req.valor ≤ 0 then .error (.valueError "Valor do boleto deve ser positivo")
  else if req.cliente_id = "" then .error (.valueError "ID do cliente é obrigatório")
  else if req.descricao = "" then .error (.valueError "Descrição do boleto é obrigatória")
  else if !(clientes.contains req.cliente_id) then
    .error (.valueError "Cliente não encontrado")
  else
    -- `dias_vencimento = request.dias_vencimento or 30` (0 is falsy in Python)
    let dias := match req.dias_vencimento with
      | none => 30
      | some d => if d = 0 then 30 else d
    match money_mk req.valor "BRL" with
    | .error _ => .error (.valueError "Valor monetário não pode ser negativo")
    | .ok valorM =>
      let boleto : BoletoEnt :=
        { cliente_id := req.cliente_id, valor := valorM, descricao := req.descricao
          data_emissao := now, data_vencimento := now + dias
          linha_digitavel := linha, codigo_barras := cb, status := "ativo" }
      match boleto_validar boleto with
      | .error (.valueError m) => .error (.valueError ("Dados de boleto inválidos: " ++ m))
      | .error e => .error e
      | .ok _ =>
        .ok { boleto_id := novo_id, valor := req.valor, status := "ativo" }

/-- `GerarBoletoUseCase.execute`: the outer handler re-raises `ValueError`
and wraps every other exception in `RuntimeError`. -/
def usecase_execute (clientes : List String) (req : GerarBoletoRequestDTO)
    (now : Int) (linha cb novo_id : String) : Except PyExn GerarBoletoResponseDTO :=
  match usecase_execute_body clientes req now linha cb novo_id with
  | .ok r => .ok r
  | .error (.valueError m) => .error (.valueError m)
  | .error _ => .error (.runtimeError "Erro na geração")

/-- Whether an `Except` completed without an exception. -/
def exceptOk {ε α : Type} : Except ε α → Bool
  | .ok _ => true
  | .error _ => false

instance {ε α : Type} [DecidableEq ε] [DecidableEq α] : DecidableEq (Except ε α)
  | .error a, .error b =>
    if h : a = b then .isTrue (by rw [h])
    else .isFalse (fun he => by cases he; exact h rfl)
  | .error _, .ok _ => .isFalse (fun he => by cases he)
  | .ok _, .error _ => .isFalse (fun he => by cases he)
  | .ok a, .ok b =>
    if h : a = b then .isTrue (by rw [h])
    else .isFalse (fun he => by cases he; exact h rfl)

/-! ### The document store and the endpoints of src/main.py

The Mongo collections become lists of records; each endpoint becomes a
function threading the store, returning the final store together with either
the HTTP-error raised (as a symbolic kind) or the response body. -/

abbrev OId := ℕ

structure ClienteDoc where
  id : OId
  cpf : String
  deriving DecidableEq, Repr

structure DividaDoc where
  id : OId
  cliente_id : OId
  status : String
  valor_atual : Option ℚ
  valor_original : Option ℚ
  boleto_id : Option OId
  data_vencimento : Option Int
  deriving DecidableEq, Repr

/-- A boleto document.  `gerar_boleto` writes the reference list
`dividas_ids`; the field `divida_id` (queried by the duplicate check) is kept
as an optional field because documents are schemaless and no writer in this
repository sets it on boletos. -/
structure BoletoDoc where
  id : OId
  cliente_id : OId
  dividas_ids : List OId
  divida_id : Option OId
  status : String
  valor_total : ℚ
  valor_parcela : ℚ
  parcelas : ℕ
  data_vencimento : Int
  data_cancelamento : Option Int
  cancelado_por : Option String
  deriving DecidableEq, Repr

structure AuditDoc where
  acao : String
  boleto_id : OId
  dividas_restauradas : List OId
  usuario : String
  data : Int
  deriving DecidableEq, Repr

structure DB where
  clientes : List ClienteDoc
  dividas : List DividaDoc
  boletos : List BoletoDoc
  auditoria : List AuditDoc
  deriving DecidableEq, Repr

structure GerarBoletoRequest where
  cliente_cpf : String
  dividas_ids : List OId
  parcelas : ℕ
  deriving DecidableEq, Repr

inductive GerarErr
  | parcelasForaDoIntervalo
  | nenhumaDivida
  | cpfInvalido
  | clienteNaoEncontrado
  | dividasNaoEncontradas
  | dividasNaoNegociaveis (ids : List OId)
  | parcelaMuitoPequena (valor_parcela : ℚ) (max_parcelas : ℤ)
  | falhaInjetada
  deriving DecidableEq, Repr

def statusNegociaveis : List String := ["ativo", "vencido", "inadimplente"]

/-- The statuses the duplicate-boleto check looks for:
`"status": {"$in": ["ativo", "pendente"]}`. -/
def statusBoletoBloqueante : List String := ["ativo", "pendente"]

/-- `divida.get("valor_atual", divida.get("valor_original", 0))`. -/
def valorDivida (d : DividaDoc) : ℚ :=
  d.valor_atual.getD (d.valor_original.getD 0)

/-- The `db.boletos.find_one({"divida_id": divida["_id"], "status": {"$in":
["ativo", "pendente"]}})` query: it matches on the field `divida_id`, not on
the `dividas_ids` list the generator writes. -/
def boletoExistente (db : DB) (d : DividaDoc) : Bool :=
  db.boletos.any (fun b => b.divida_id == some d.id && statusBoletoBloqueante.contains b.status)

/-- A selected debt is put on `dividas_nao_negociaveis` when its status is
outside {ativo, vencido, inadimplente} or the duplicate-boleto query finds a
match. -/
def naoNegociavel (db : DB) (d : DividaDoc) : Bool :=
  !(statusNegociaveis.contains d.status) || boletoExistente db d

/-- The `db.dividas.find({"_id": {"$in": ...}, "cliente_id": cliente["_id"]})`
query of `gerar_boleto`. -/
def dividasSelecionadas (req : GerarBoletoRequest) (db : DB) (cliente : ClienteDoc) :
    List DividaDoc :=
  db.dividas.filter (fun d => req.dividas_ids.contains d.id && d.cliente_id == cliente.id)

/-- The validation phase of the `gerar_boleto` endpoint, in program order:
installment range, non-empty selection, CPF validity (via main.py's own
`validate_cpf`), client lookup by normalized CPF, fetch of the selected debts
of that client, and the negotiability scan. -/
def gerar_valida (req : GerarBoletoRequest) (db : DB) :
    Except GerarErr (ClienteDoc × List DividaDoc) :=
  if ¬ (1 ≤ req.parcelas ∧ req.parcelas ≤ 5) then .error .parcelasForaDoIntervalo
  else if req.dividas_ids = [] then .error .nenhumaDivida
  else if !(validate_cpf req.cliente_cpf) then .error .cpfInvalido
  else
    match db.clientes.find? (fun c => c.cpf == normalize_cpf req.cliente_cpf) with
    | none => .error .clienteNaoEncontrado
    | some cliente =>
      if (dividasSelecionadas req db cliente).length ≠ req.dividas_ids.length then
        .error .dividasNaoEncontradas
      else if (dividasSelecionadas req db cliente).filter (fun d => naoNegociavel db d) ≠ [] then
        .error (.dividasNaoNegociaveis
          (((dividasSelecionadas req db cliente).filter (fun d => naoNegociavel db d)).map (·.id)))
      else .ok (cliente, dividasSelecionadas req db cliente)

def valorTotal (ds : List DividaDoc) : ℚ := (ds.map valorDivida).sum

/-- The boleto document `gerar_boleto` inserts (`boleto_data`): note
`dividas_ids` is set while `divida_id` is not, `valor_parcela` is
`round(valor_total / parcelas, 2)`, and `data_vencimento` is seven days out. -/
def novoBoletoDoc (novo_id : OId) (cliente_id : OId) (req : GerarBoletoRequest)
    (vt : ℚ) (now : Int) : BoletoDoc :=
  { id := novo_id, cliente_id := cliente_id, dividas_ids := req.dividas_ids
    divida_id := none, status := "ativo", valor_total := vt
    valor_parcela := round2 (vt / (req.parcelas : ℚ)), parcelas := req.parcelas
    data_vencimento := now + 7, data_cancelamento := none, cancelado_por := none }

structure BoletoGeradoResponse where
  id : OId
  valor_total : ℚ
  valor_parcela : ℚ
  parcelas : ℕ
  dividas_incluidas : List OId
  deriving DecidableEq, Repr

/-- The `gerar_boleto` endpoint.  After validation it computes the installment,
applies the R$ 50 floor, inserts the boleto document and only then updates the
selected debts — two separate store operations with no transaction.  The
`inject` flag stops execution between the two writes, modelling a failure
occurring after the instrument insert and before the debt updates. -/
def gerar_boleto_core (inject : Bool) (req : GerarBoletoRequest) (db : DB)
    (novo_id : OId) (now : Int) : DB × Except GerarErr BoletoGeradoResponse :=
  match gerar_valida req db with
  | .error e => (db, .error e)
  | .ok (cliente, dividas) =>
    let vt := valorTotal dividas
    let vp := vt / (req.parcelas : ℚ)
    if vp < 50 then (db, .error (.parcelaMuitoPequena vp (py_int (vt / 50))))
    else
      let novo := novoBoletoDoc novo_id cliente.id req vt now
      let db1 : DB := { db with boletos := db.boletos ++ [novo] }
      if inject then (db1, .error .falhaInjetada)
      else
        let db2 : DB := { db1 with dividas := db1.dividas.map (fun d =>
          if req.dividas_ids.contains d.id then
            { d with status := "negociado", boleto_id := some novo_id }
          else d) }
        (db2, .ok { id := novo_id, valor_total := vt, valor_parcela := round2 vp
                    parcelas := req.parcelas, dividas_incluidas := req.dividas_ids })

/-- The endpoint as deployed (no injected failure). -/
def gerar_boleto (req : GerarBoletoRequest) (db : DB) (novo_id : OId) (now : Int) :
    DB × Except GerarErr BoletoGeradoResponse :=
  gerar_boleto_core false req db novo_id now

inductive CancelErr
  | naoEncontrado
  | naoCancelavel (status : String)
  | nenhumaDividaAssociada
  deriving DecidableEq, Repr

structure BoletoCanceladoResponse where
  boleto_id : OId
  status : String
  dividas_restauradas : List OId
  deriving DecidableEq, Repr

/-- The status a debt is restored to on cancellation:
`dias_vencido = (datetime.now() - data_vencimento).days`; positive and at most
30 gives `vencido`, beyond 30 gives `inadimplente`, otherwise (including a
missing or unparsable due date) `ativo`.  The debt status held before
negotiation is not consulted. -/
def restaura_status (now : Int) (dv : Option Int) : String :=
  match dv with
  | none => "ativo"
  | some v =>
    let dias_vencido := now - v
    if 0 < dias_vencido then
      (if dias_vencido ≤ 30 then "vencido" else "inadimplente")
    else "ativo"

/-- The `db.dividas.find({"boleto_id": boleto_object_id})` query of
`cancelar_boleto`. -/
def dividasAssociadas (db : DB) (bid : OId) : List DividaDoc :=
  db.dividas.filter (fun d => d.boleto_id == some bid)

/-- The `cancelar_boleto` endpoint: lookup, cancelability check, associated
debts check, then (and only then) the boleto update, the per-debt restore
(clearing `boleto_id` via `$unset`), and the audit insert. -/
def cancelar_boleto (db : DB) (bid : OId) (usuario : String) (now : Int) :
    DB × Except CancelErr BoletoCanceladoResponse :=
  match db.boletos.find? (fun b => b.id == bid) with
  | none => (db, .error .naoEncontrado)
  | some boleto =>
    if boleto.status = "pago" ∨ boleto.status = "cancelado" then
      (db, .error (.naoCancelavel boleto.status))
    else if dividasAssociadas db bid = [] then (db, .error .nenhumaDividaAssociada)
    else
      let db1 : DB := { db with boletos := db.boletos.map (fun b =>
        if b.id == bid then
          { b with status := "cancelado", data_cancelamento := some now
                   cancelado_por := some usuario }
        else b) }
      let db2 : DB := { db1 with dividas := db1.dividas.map (fun d =>
        if d.boleto_id == some bid then
          { d with status := restaura_status now d.data_vencimento, boleto_id := none }
        else d) }
      let db3 : DB := { db2 with auditoria := db2.auditoria ++
        [{ acao := "cancelamento_boleto", boleto_id := bid
           dividas_restauradas := (dividasAssociadas db bid).map (·.id)
           usuario := usuario, data := now }] }
      (db3, .ok { boleto_id := bid, status := "cancelado"
                  dividas_restauradas := (dividasAssociadas db bid).map (·.id) })

/-! ### Structural lemmas: the three outcomes of `gerar_boleto` after a
successful validation phase -/

theorem gerar_core_ok {req : GerarBoletoRequest} {db : DB} {cliente : ClienteDoc}
    {dividas : List DividaDoc} (novo_id : OId) (now : Int)
    (h : gerar_valida req db = .ok (cliente, dividas))
    (h50 : ¬ (valorTotal dividas / (req.parcelas : ℚ) < 50)) :
    gerar_boleto req db novo_id now =
      ({ db with
          boletos := db.boletos ++
            [novoBoletoDoc novo_id cliente.id req (valorTotal dividas) now]
          dividas := db.dividas.map (fun d =>
            if req.dividas_ids.contains d.id then
              { d with status := "negociado", boleto_id := some novo_id }
            else d) },
       .ok { id := novo_id, valor_total := valorTotal dividas
             valor_parcela := round2 (valorTotal dividas / (req.parcelas : ℚ))
             parcelas := req.parcelas, dividas_incluidas := req.dividas_ids }) := by
  simp only [gerar_boleto, gerar_boleto_core, h]
  rw [if_neg h50]
  rfl

theorem gerar_core_inject {req : GerarBoletoRequest} {db : DB} {cliente : ClienteDoc}
    {dividas : List DividaDoc} (novo_id : OId) (now : Int)
    (h : gerar_valida req db = .ok (cliente, dividas))
    (h50 : ¬ (valorTotal dividas / (req.parcelas : ℚ) < 50)) :
    gerar_boleto_core true req db novo_id now =
      ({ db with boletos := db.boletos ++
          [novoBoletoDoc novo_id cliente.id req (valorTotal dividas) now] },
       .error .falhaInjetada) := by
  simp only [gerar_boleto_core, h]
  rw [if_neg h50]
  rfl

theorem gerar_core_piso {req : GerarBoletoRequest} {db : DB} {cliente : ClienteDoc}
    {dividas : List DividaDoc} (novo_id : OId) (now : Int)
    (h : gerar_valida req db = .ok (cliente, dividas))
    (h50 : valorTotal dividas / (req.parcelas : ℚ) < 50) :
    gerar_boleto req db novo_id now =
      (db, .error (.parcelaMuitoPequena (valorTotal dividas / (req.parcelas : ℚ))
        (py_int (valorTotal dividas / 50)))) := by
  simp only [gerar_boleto, gerar_boleto_core, h]
  rw [if_pos h50]

/-! ### Concrete store instances used to exercise the endpoints -/

def clienteAtomico : ClienteDoc := { id := 1, cpf := "11144477735" }

def dividaAtomico : DividaDoc :=
  { id := 1, cliente_id := 1, status := "ativo", valor_atual := some 300
    valor_original := none, boleto_id := none, data_vencimento := some 0 }

def dbAtomico : DB :=
  { clientes := [clienteAtomico], dividas := [dividaAtomico], boletos := [], auditoria := [] }

def reqAtomico : GerarBoletoRequest :=
  { cliente_cpf := "11144477735", dividas_ids := [1], parcelas := 1 }

def clienteDuplo : ClienteDoc := { id := 2, cpf := "11144477735" }

def dividaDuplo : DividaDoc :=
  { id := 1, cliente_id := 2, status := "ativo", valor_atual := some 300
    valor_original := none, boleto_id := none, data_vencimento := some 0 }

/-- A store holding a debt that an instrument in status `ativo` already
references through its `dividas_ids` list (exactly what `gerar_boleto`
writes), with no `divida_id` field set. -/
def dbDuplo : DB :=
  { clientes := [clienteDuplo], dividas := [dividaDuplo]
    boletos := [{ id := 5, cliente_id := 2, dividas_ids := [1], divida_id := none
                  status := "ativo", valor_total := 300, valor_parcela := 300
                  parcelas := 1, data_vencimento := 7
                  data_cancelamento := none, cancelado_por := none }]
    auditoria := [] }

def reqDuplo : GerarBoletoRequest :=
  { cliente_cpf := "11144477735", dividas_ids := [1], parcelas := 1 }

def clienteTolerancia : ClienteDoc := { id := 1, cpf := "11144477735" }

/-- The rational 100.01, given in normal form so that it evaluates by kernel
reduction. -/
def cem01 : ℚ := ⟨10001, 100, by norm_num, by norm_num⟩

theorem cem01_eq : cem01 = 10001 / 100 := by
  rw [cem01, Rat.mk'_eq_divInt, Rat.divInt_eq_div]
  norm_num

def dividaTol1 : DividaDoc :=
  { id := 1, cliente_id := 1, status := "ativo", valor_atual := some cem01
    valor_original := none, boleto_id := none, data_vencimento := some 0 }

def dividaTol2 : DividaDoc :=
  { id := 2, cliente_id := 1, status := "ativo", valor_atual := some cem01
    valor_original := none, boleto_id := none, data_vencimento := some 0 }

/-- Two debts of R$ 100.01 each: total R$ 200.02. -/
def dbTolerancia : DB :=
  { clientes := [clienteTolerancia], dividas := [dividaTol1, dividaTol2]
    boletos := [], auditoria := [] }

def reqTolerancia : GerarBoletoRequest :=
  { cliente_cpf := "11144477735", dividas_ids := [1, 2], parcelas := 4 }

def clientePiso : ClienteDoc := { id := 1, cpf := "11144477735" }

def dividaPiso : DividaDoc :=
  { id := 1, cliente_id := 1, status := "vencido", valor_atual := some 200
    valor_original := none, boleto_id := none, data_vencimento := some 0 }

/-- A single debt of R$ 200.00. -/
def dbPiso : DB :=
  { clientes := [clientePiso], dividas := [dividaPiso], boletos := [], auditoria := [] }

def reqPiso : GerarBoletoRequest :=
  { cliente_cpf := "11144477735", dividas_ids := [1], parcelas := 5 }

/-- A store with one negotiated debt (due 10 days before the cancellation
instant 100) attached to an active boleto. -/
def dbCancelW : DB :=
  { clientes := []
    dividas := [{ id := 1, cliente_id := 1, status := "negociado", valor_atual := some 100
                  valor_original := none, boleto_id := some 5, data_vencimento := some 90 }]
    boletos := [{ id := 5, cliente_id := 1, dividas_ids := [1], divida_id := none
                  status := "ativo", valor_total := 100, valor_parcela := 100
                  parcelas := 1, data_vencimento := 7
                  data_cancelamento := none, cancelado_por := none }]
    auditoria := [] }

/-- The store after `cancelar_boleto dbCancelW 5 "user" 100`. -/
def dbCancelW2 : DB :=
  { clientes := []
    dividas := [{ id := 1, cliente_id := 1, status := "vencido", valor_atual := some 100
                  valor_original := none, boleto_id := none, data_vencimento := some 90 }]
    boletos := [{ id := 5, cliente_id := 1, dividas_ids := [1], divida_id := none
                  status := "cancelado", valor_total := 100, valor_parcela := 100
                  parcelas := 1, data_vencimento := 7
                  data_cancelamento := some 100, cancelado_por := some "user" }]
    auditoria := [{ acao := "cancelamento_boleto", boleto_id := 5
                    dividas_restauradas := [1], usuario := "user", data := 100 }] }

def respCancelW : BoletoCanceladoResponse :=
  { boleto_id := 5, status := "cancelado", dividas_restauradas := [1] }

def clienteEndpoint : ClienteDoc := { id := 3, cpf := "11144477735" }

def dividaEndpoint : DividaDoc :=
  { id := 1, cliente_id := 3, status := "ativo", valor_atual := some 300
    valor_original := none, boleto_id := none, data_vencimento := some 0 }

def dbEndpoint : DB :=
  { clientes := [clienteEndpoint], dividas := [dividaEndpoint]
    boletos := [], auditoria := [] }

def reqEndpoint : GerarBoletoRequest :=
  { cliente_cpf := "11144477735", dividas_ids := [1], parcelas := 1 }

def entW : BoletoEnt :=
  { cliente_id := "c1", valor := { valor := 10, moeda := "BRL" }, descricao := "cobranca"
    data_emissao := 0, data_vencimento := 30, linha_digitavel := "11111 22222"
    codigo_barras := "123", status := "ativo" }

def reqDTOW : GerarBoletoRequestDTO :=
  { valor := 10, cliente_id := "c1", descricao := "cobranca", dias_vencimento := none }

def mBRL : Money := { valor := 1, moeda := "BRL" }

def mUSD : Money := { valor := 1, moeda := "USD" }

/-! ### Helper lemmas about the validation phase -/

theorem gerar_valida_ok_parcelas {req : GerarBoletoRequest} {db : DB}
    {pr : ClienteDoc × List DividaDoc} (h : gerar_valida req db = .ok pr) :
    1 ≤ req.parcelas ∧ req.parcelas ≤ 5 := by
  by_cases hp : 1 ≤ req.parcelas ∧ req.parcelas ≤ 5
  · exact hp
  · unfold gerar_valida at h
    rw [if_pos hp] at h
    cases h

theorem gerar_valida_ok_negociaveis {req : GerarBoletoRequest} {db : DB}
    {cliente : ClienteDoc} {dividas : List DividaDoc}
    (h : gerar_valida req db = .ok (cliente, dividas)) :
    dividas.filter (fun d => naoNegociavel db d) = [] := by
  unfold gerar_valida at h
  split at h
  · cases h
  split at h
  · cases h
  split at h
  · cases h
  split at h
  · cases h
  next cliente0 _ =>
    split at h
    · cases h
    split at h
    · cases h
    next hne =>
      rw [not_not] at hne
      have h2 : dividasSelecionadas req db cliente0 = dividas := by
        cases h
        rfl
      rw [h2] at hne
      exact hne

/-! ### Bridging lemmas between the source checksum sums and the spec-worded
weighted sums -/

theorem spec_peso1_soma (d0 d1 d2 d3 d4 d5 d6 d7 d8 d9 d10 : ℕ) :
    spec_peso1 [d0, d1, d2, d3, d4, d5, d6, d7, d8, d9, d10]
      = cpf_soma1 [d0, d1, d2, d3, d4, d5, d6, d7, d8, d9, d10] := by
  simp [spec_peso1, cpf_soma1, List.range_succ]

theorem spec_peso2_soma (d0 d1 d2 d3 d4 d5 d6 d7 d8 d9 d10 : ℕ) :
    spec_peso2 [d0, d1, d2, d3, d4, d5, d6, d7, d8, d9, d10]
      = cpf_soma2 [d0, d1, d2, d3, d4, d5, d6, d7, d8, d9, d10] := by
  simp [spec_peso2, cpf_soma2, List.range_succ]

/-- C6: for every 11-digit sequence, `CPF` construction accepts iff the digits
are not all equal and both check digits match the weighted-sum remainder-11
algorithm of the spec; "11144477735" is accepted, "11111111111" and
"12345678901" are rejected. -/
theorem cpf_validacao_especificacao :
    (∀ d0 d1 d2 d3 d4 d5 d6 d7 d8 d9 d10 : ℕ,
      cpf_validar_digits [d0, d1, d2, d3, d4, d5, d6, d7, d8, d9, d10] = true ↔
        cpf_spec_accepts [d0, d1, d2, d3, d4, d5, d6, d7, d8, d9, d10])
    ∧ (∀ s : String, exceptOk (cpf_create s) = cpf_validar s)
    ∧ exceptOk (cpf_create "11144477735") = true
    ∧ exceptOk (cpf_create "11111111111") = false
    ∧ exceptOk (cpf_create "12345678901") = false := by
  refine ⟨?_, ?_, rfl, rfl, rfl⟩
  · intro d0 d1 d2 d3 d4 d5 d6 d7 d8 d9 d10
    rw [cpf_validar_digits, cpf_spec_accepts, spec_peso1_soma, spec_peso2_soma,
      spec_digito, cpf_digito]
    simp only [Bool.and_eq_true, beq_iff_eq, Bool.not_eq_true']
    rw [show ([d0, d1, d2, d3, d4, d5, d6, d7, d8, d9, d10] : List ℕ).length = 11 from rfl]
    simp [cpf_all_equal, List.all_cons, beq_iff_eq, List.forall_mem_cons]
    tauto
  · intro s
    by_cases hv : cpf_validar s
    · simp [cpf_create, hv, exceptOk]
    · simp only [Bool.not_eq_true] at hv
      simp [cpf_create, hv, exceptOk]

/-- C7 (amended): every `Money` produced by the constructor or by an
arithmetic operation is nonnegative and stored rounded half-up to 2 decimals;
negative construction is rejected; `subtrair` fails on a negative result;
`somar`, `subtrair` and the ordered comparisons fail on a currency mismatch;
equality (`__eq__`), however, returns `false` on a currency mismatch instead
of failing. -/
theorem money_invariantes :
    (∀ (v : ℚ) (c : String) (m : Money), money_mk v c = .ok m → MoneyWF m)
    ∧ (∀ (v : ℚ) (c : String), v < 0 → money_mk v c = .error .negativeAmount)
    ∧ (∀ m o r : Money, Money.somar m o = .ok r → MoneyWF r)
    ∧ (∀ m o r : Money, Money.subtrair m o = .ok r → MoneyWF r)
    ∧ (∀ (m : Money) (f : ℚ) (r : Money), Money.multiplicar m f = .ok r → MoneyWF r)
    ∧ (∀ (m : Money) (dv : ℚ) (r : Money), Money.dividir m dv = .ok r → MoneyWF r)
    ∧ (∀ m o : Money, m.moeda ≠ o.moeda →
        Money.somar m o = .error .currencyMismatch
        ∧ Money.subtrair m o = .error .currencyMismatch
        ∧ Money.menor m o = .error .currencyMismatch
        ∧ Money.menorIgual m o = .error .currencyMismatch
        ∧ Money.maior m o = .error .currencyMismatch
        ∧ Money.maiorIgual m o = .error .currencyMismatch)
    ∧ (∀ m o : Money, m.moeda = o.moeda → m.valor - o.valor < 0 →
        Money.subtrair m o = .error .negativeResult)
    ∧ (∀ m o : Money, m.moeda ≠ o.moeda → Money.igual m o = false) := by
  have hmk : ∀ (v : ℚ) (c : String) (m : Money), money_mk v c = .ok m → MoneyWF m := by
    intro v c m h
    unfold money_mk at h
    split at h
    · cases h
    next hneg =>
      cases h
      exact ⟨round2_nonneg (not_lt.mp hneg), round2_idem v⟩
  refine ⟨hmk, ?_, ?_, ?_, ?_, ?_, ?_, ?_, ?_⟩
  · intro v c hv
    unfold money_mk
    rw [if_pos hv]
  · intro m o r h
    unfold Money.somar at h
    split at h
    · cases h
    · exact hmk _ _ _ h
  · intro m o r h
    unfold Money.subtrair at h
    split at h
    · cases h
    split at h
    · cases h
    exact hmk _ _ _ h
  · intro m f r h
    exact hmk _ _ _ h
  · intro m dv r h
    unfold Money.dividir at h
    split at h
    · cases h
    exact hmk _ _ _ h
  · intro m o hmo
    refine ⟨?_, ?_, ?_, ?_, ?_, ?_⟩ <;>
      simp only [Money.somar, Money.subtrair, Money.menor, Money.menorIgual,
        Money.maior, Money.maiorIgual] <;>
      rw [if_pos hmo]
  · intro m o hmo hneg
    rw [Money.subtrair, if_neg (by simp [hmo]), if_pos hneg]
  · intro m o hmo
    simp [Money.igual, hmo]

/-- C7 counterexample: two constructible `Money` values of different
currencies compare equal-or-not through `__eq__` without any failure — the
comparison returns the value `false`. -/
theorem money_igualdade_contraexemplo :
    mBRL.moeda ≠ mUSD.moeda
    ∧ Money.igual mBRL mUSD = false
    ∧ money_mk 1 "BRL" = .ok mBRL
    ∧ money_mk 1 "USD" = .ok mUSD := by
  refine ⟨by decide, rfl, ?_, ?_⟩ <;>
    norm_num [money_mk, round2_eq, mBRL, mUSD]

theorem money_invariantes_witness :
    Money.somar mBRL mUSD = .error .currencyMismatch
    ∧ Money.igual mBRL mUSD = false :=
  ⟨(money_invariantes.2.2.2.2.2.2.1 mBRL mUSD (by decide)).1,
   money_invariantes.2.2.2.2.2.2.2.2 mBRL mUSD (by decide)⟩

/-- C9 (amended): the module-level `validate_cpf` of cpf.py raises
`AttributeError` on every input (it calls the undefined `CPF.criar` and its
handler catches only `ValueError`); the boleto-generation endpoint, however,
calls the separate `validate_cpf` defined in main.py, a total boolean
function, and a well-formed generation request completes successfully. -/
theorem validate_cpf_divergencia :
    (∀ s : String, vo_validate_cpf s = .error (.attributeError "criar"))
    ∧ (∃ (req : GerarBoletoRequest) (db : DB) (novo_id : OId) (now : Int)
        (db2 : DB) (resp : BoletoGeradoResponse),
        gerar_boleto req db novo_id now = (db2, .ok resp)) := by
  constructor
  · intro s
    rfl
  · have hv : gerar_valida reqEndpoint dbEndpoint = .ok (clienteEndpoint, [dividaEndpoint]) := by
      decide
    have h50 : ¬ (valorTotal [dividaEndpoint] / ((reqEndpoint.parcelas : ℕ) : ℚ) < 50) := by
      norm_num [valorTotal, valorDivida, dividaEndpoint, reqEndpoint]
    exact ⟨reqEndpoint, dbEndpoint, 7, 0, _, _, gerar_core_ok 7 0 hv h50⟩

/-- C9 counterexample: the CPF-validation step of the boleto-generation
endpoint does not raise — main.py's `validate_cpf` returns a boolean and a
concrete request passes it and the whole endpoint succeeds. -/
theorem validate_cpf_endpoint_contraexemplo :
    validate_cpf "11144477735" = true
    ∧ validate_cpf "123" = false
    ∧ exceptOk (gerar_boleto reqEndpoint dbEndpoint 7 0).2 = true := by
  refine ⟨rfl, rfl, ?_⟩
  have hv : gerar_valida reqEndpoint dbEndpoint = .ok (clienteEndpoint, [dividaEndpoint]) := by
    decide
  have h50 : ¬ (valorTotal [dividaEndpoint] / ((reqEndpoint.parcelas : ℕ) : ℚ) < 50) := by
    norm_num [valorTotal, valorDivida, dividaEndpoint, reqEndpoint]
  rw [gerar_core_ok 7 0 hv h50]
  rfl

/-- C10: `Boleto.validar` reads `self.valor.amount` while `Money` exposes
`valor`, so for every entity with a non-empty client id it raises
`AttributeError`; consequently `GerarBoletoUseCase.execute` never returns
successfully. -/
theorem boleto_validar_atributo_inexistente :
    (∀ b : BoletoEnt, b.cliente_id ≠ "" →
      boleto_validar b = .error (.attributeError "amount"))
    ∧ (∀ (clientes : List String) (req : GerarBoletoRequestDTO) (now : Int)
        (linha cb novo_id : String),
        exceptOk (usecase_execute clientes req now linha cb novo_id) = false) := by
  have hval : ∀ b : BoletoEnt, b.cliente_id ≠ "" →
      boleto_validar b = .error (.attributeError "amount") := by
    intro b hb
    have hm : money_getattr_num b.valor "amount" = .error (.attributeError "amount") := rfl
    simp only [boleto_validar, hm]
    rw [if_neg hb]
  refine ⟨hval, ?_⟩
  intro clientes req now linha cb novo_id
  by_cases h1 : req.valor ≤ 0
  · simp [usecase_execute, usecase_execute_body, h1, exceptOk]
  by_cases h2 : req.cliente_id = ""
  · simp [usecase_execute, usecase_execute_body, h1, h2, exceptOk]
  by_cases h3 : req.descricao = ""
  · simp [usecase_execute, usecase_execute_body, h1, h2, h3, exceptOk]
  by_cases h4 : req.cliente_id ∈ clientes
  · cases hmk : money_mk req.valor "BRL" with
    | error e =>
      simp [usecase_execute, usecase_execute_body, h1, h2, h3, h4, hmk, exceptOk]
    | ok m =>
      have hv := hval
        { cliente_id := req.cliente_id, valor := m, descricao := req.descricao
          data_emissao := now
          data_vencimento := now + (match req.dias_vencimento with
            | none => 30
            | some d => if d = 0 then 30 else d)
          linha_digitavel := linha, codigo_barras := cb, status := "ativo" } h2
      simp [usecase_execute, usecase_execute_body, h1, h2, h3, h4, hmk, hv, exceptOk]
  · simp [usecase_execute, usecase_execute_body, h1, h2, h3, h4, exceptOk]

theorem boleto_validar_atributo_inexistente_witness :
    boleto_validar entW = .error (.attributeError "amount")
    ∧ exceptOk (usecase_execute ["c1"] reqDTOW 0 "11111 22222" "123" "novo") = false :=
  ⟨boleto_validar_atributo_inexistente.1 entW (by decide),
   boleto_validar_atributo_inexistente.2 ["c1"] reqDTOW 0 "11111 22222" "123" "novo"⟩

/-- C1 (amended): the instrument insert and the debt updates of
`gerar_boleto` are two sequential store writes with no enclosing transaction;
a failure injected after the insert and before the updates leaves the new
instrument persisted (one more document in `boletos`) while every debt is
unchanged. -/
theorem gerar_boleto_nao_atomico :
    ∀ (req : GerarBoletoRequest) (db : DB) (novo_id : OId) (now : Int)
      (cliente : ClienteDoc) (dividas : List DividaDoc),
      gerar_valida req db = .ok (cliente, dividas) →
      ¬ (valorTotal dividas / (req.parcelas : ℚ) < 50) →
      (gerar_boleto_core true req db novo_id now).1.dividas = db.dividas
      ∧ (gerar_boleto_core true req db novo_id now).1.boletos
          = db.boletos ++ [novoBoletoDoc novo_id cliente.id req (valorTotal dividas) now]
      ∧ (gerar_boleto_core true req db novo_id now).2 = .error .falhaInjetada := by
  intro req db novo_id now cliente dividas h h50
  rw [gerar_core_inject novo_id now h h50]
  exact ⟨rfl, rfl, rfl⟩

theorem gerar_boleto_nao_atomico_witness :
    (gerar_boleto_core true reqAtomico dbAtomico 9 0).1.dividas = dbAtomico.dividas
    ∧ (gerar_boleto_core true reqAtomico dbAtomico 9 0).1.boletos
        = dbAtomico.boletos ++
          [novoBoletoDoc 9 clienteAtomico.id reqAtomico (valorTotal [dividaAtomico]) 0]
    ∧ (gerar_boleto_core true reqAtomico dbAtomico 9 0).2 = .error .falhaInjetada :=
  gerar_boleto_nao_atomico reqAtomico dbAtomico 9 0 clienteAtomico [dividaAtomico]
    (by decide) (by norm_num [valorTotal, valorDivida, dividaAtomico, reqAtomico])

/-- C1 counterexample: on a concrete store, a failure injected between the
instrument insert and the debt updates leaves one persisted instrument, not
zero. -/
theorem gerar_boleto_atomicidade_contraexemplo :
    (gerar_boleto_core true reqAtomico dbAtomico 9 0).2 = .error .falhaInjetada
    ∧ (gerar_boleto_core true reqAtomico dbAtomico 9 0).1.boletos.length = 1
    ∧ dbAtomico.boletos.length = 0 := by
  have hv : gerar_valida reqAtomico dbAtomico = .ok (clienteAtomico, [dividaAtomico]) := by
    decide
  rw [gerar_core_inject 9 0 hv
    (by norm_num [valorTotal, valorDivida, dividaAtomico, reqAtomico])]
  refine ⟨rfl, by simp [dbAtomico], rfl⟩

/-- C2 (amended): the duplicate-instrument check of `gerar_boleto` blocks a
selected debt exactly when its status is outside {ativo, vencido,
inadimplente} or some boleto document carries `divida_id = debt` with status
in {ativo, pendente}; instruments that reference the debt through the
`dividas_ids` list written by generation — and instruments in status
`vencido` (overdue) — do not block. -/
theorem gerar_boleto_criterio_bloqueio :
    (∀ (db : DB) (d : DividaDoc),
      naoNegociavel db d = true ↔
        (¬ d.status ∈ statusNegociaveis
         ∨ ∃ b ∈ db.boletos, b.divida_id = some d.id ∧ b.status ∈ statusBoletoBloqueante))
    ∧ (∀ (req : GerarBoletoRequest) (db : DB) (cliente : ClienteDoc)
        (dividas : List DividaDoc),
        gerar_valida req db = .ok (cliente, dividas) →
        ∀ d ∈ dividas, naoNegociavel db d = false) := by
  constructor
  · intro db d
    simp [naoNegociavel, boletoExistente, List.any_eq_true, Bool.or_eq_true,
      Bool.not_eq_true', beq_iff_eq, and_comm]
  · intro req db cliente dividas h d hd
    have hfil := gerar_valida_ok_negociaveis h
    have := List.filter_eq_nil_iff.mp hfil d hd
    simpa using this

theorem gerar_boleto_criterio_bloqueio_witness :
    naoNegociavel dbDuplo dividaDuplo = false :=
  gerar_boleto_criterio_bloqueio.2 reqDuplo dbDuplo clienteDuplo [dividaDuplo]
    (by decide) dividaDuplo (List.mem_singleton.mpr rfl)

/-- C2 counterexample: on a store where debt 1 (status ativo) is already
referenced through `dividas_ids` by an instrument in status ativo, the
negotiate call succeeds instead of failing, and afterwards two instruments in
status ativo reference debt 1. -/
theorem gerar_boleto_duplo_boleto_contraexemplo :
    (dbDuplo.boletos.filter (fun b => b.status == "ativo" && b.dividas_ids.contains 1)).length = 1
    ∧ dividaDuplo.status = "ativo"
    ∧ exceptOk (gerar_boleto reqDuplo dbDuplo 9 0).2 = true
    ∧ ((gerar_boleto reqDuplo dbDuplo 9 0).1.boletos.filter
        (fun b => b.status == "ativo" && b.dividas_ids.contains 1)).length = 2 := by
  have hv : gerar_valida reqDuplo dbDuplo = .ok (clienteDuplo, [dividaDuplo]) := by
    decide
  rw [gerar_core_ok 9 0 hv
    (by norm_num [valorTotal, valorDivida, dividaDuplo, reqDuplo])]
  refine ⟨by decide, rfl, rfl, by decide⟩

/-- C4 (amended): every instrument created by a successful negotiate call
stores `valor_parcela = round2(valor_total / parcelas)`, the floor
`valor_parcela ≥ 50` holds, and `valor_parcela * parcelas` differs from
`valor_total` by at most half a cent per installment (`parcelas / 200`,
i.e. up to 2.5 cents at five installments) — not by at most one cent. -/
theorem gerar_boleto_parcela_invariante :
    ∀ (req : GerarBoletoRequest) (db : DB) (novo_id : OId) (now : Int)
      (cliente : ClienteDoc) (dividas : List DividaDoc),
      gerar_valida req db = .ok (cliente, dividas) →
      exceptOk (gerar_boleto req db novo_id now).2 = true →
      (gerar_boleto req db novo_id now).1.boletos
          = db.boletos ++ [novoBoletoDoc novo_id cliente.id req (valorTotal dividas) now]
      ∧ (novoBoletoDoc novo_id cliente.id req (valorTotal dividas) now).valor_parcela
          = round2 (valorTotal dividas / (req.parcelas : ℚ))
      ∧ 50 ≤ round2 (valorTotal dividas / (req.parcelas : ℚ))
      ∧ |round2 (valorTotal dividas / (req.parcelas : ℚ)) * (req.parcelas : ℚ)
           - valorTotal dividas| ≤ (req.parcelas : ℚ) / 200 := by
  intro req db novo_id now cliente dividas h hok
  by_cases h50 : valorTotal dividas / (req.parcelas : ℚ) < 50
  · rw [gerar_core_piso novo_id now h h50] at hok
    cases hok
  · rw [gerar_core_ok novo_id now h h50] at hok ⊢
    have hn1 : 1 ≤ req.parcelas := (gerar_valida_ok_parcelas h).1
    have hnq : (0:ℚ) < (req.parcelas : ℚ) := by exact_mod_cast hn1
    have hvt : valorTotal dividas / (req.parcelas : ℚ) * (req.parcelas : ℚ)
        = valorTotal dividas := div_mul_cancel₀ _ (ne_of_gt hnq)
    refine ⟨rfl, rfl, round2_ge_fifty (not_lt.mp h50), ?_⟩
    have hb := round2_close (valorTotal dividas / (req.parcelas : ℚ))
    calc |round2 (valorTotal dividas / (req.parcelas : ℚ)) * (req.parcelas : ℚ)
            - valorTotal dividas|
        = |(round2 (valorTotal dividas / (req.parcelas : ℚ))
            - valorTotal dividas / (req.parcelas : ℚ)) * (req.parcelas : ℚ)| := by
          rw [sub_mul, hvt]
      _ = |round2 (valorTotal dividas / (req.parcelas : ℚ))
            - valorTotal dividas / (req.parcelas : ℚ)| * |(req.parcelas : ℚ)| := abs_mul _ _
      _ ≤ (1/200) * (req.parcelas : ℚ) := by
          rw [abs_of_nonneg (le_of_lt hnq)]
          exact mul_le_mul_of_nonneg_right hb (le_of_lt hnq)
      _ = (req.parcelas : ℚ) / 200 := by ring

theorem gerar_boleto_parcela_invariante_witness :
    (gerar_boleto reqAtomico dbAtomico 8 0).1.boletos
        = dbAtomico.boletos ++
          [novoBoletoDoc 8 clienteAtomico.id reqAtomico (valorTotal [dividaAtomico]) 0]
    ∧ (novoBoletoDoc 8 clienteAtomico.id reqAtomico (valorTotal [dividaAtomico]) 0).valor_parcela
        = round2 (valorTotal [dividaAtomico] / ((reqAtomico.parcelas : ℕ) : ℚ))
    ∧ 50 ≤ round2 (valorTotal [dividaAtomico] / ((reqAtomico.parcelas : ℕ) : ℚ))
    ∧ |round2 (valorTotal [dividaAtomico] / ((reqAtomico.parcelas : ℕ) : ℚ))
         * ((reqAtomico.parcelas : ℕ) : ℚ) - valorTotal [dividaAtomico]|
        ≤ ((reqAtomico.parcelas : ℕ) : ℚ) / 200 :=
  gerar_boleto_parcela_invariante reqAtomico dbAtomico 8 0 clienteAtomico [dividaAtomico]
    (by decide)
    (by have hv : gerar_valida reqAtomico dbAtomico = .ok (clienteAtomico, [dividaAtomico]) := by
          decide
        rw [gerar_core_ok 8 0 hv
          (by norm_num [valorTotal, valorDivida, dividaAtomico, reqAtomico])]
        rfl)

/-- C4 counterexample: debts totalling R$ 200.02 split into four installments
give a stored installment of R$ 50.01, and `50.01 * 4 = 200.04` differs from
the stored total `200.02` by two cents — beyond the claimed one-cent
tolerance. -/
theorem gerar_boleto_tolerancia_contraexemplo :
    exceptOk (gerar_boleto reqTolerancia dbTolerancia 9 0).2 = true
    ∧ ((gerar_boleto reqTolerancia dbTolerancia 9 0).1.boletos.map
        (fun b => (b.valor_parcela, b.valor_total, b.parcelas))) = [(5001/100, 20002/100, 4)]
    ∧ ¬ (|(5001/100 : ℚ) * 4 - 20002/100| ≤ 1/100) := by
  have hv : gerar_valida reqTolerancia dbTolerancia
      = .ok (clienteTolerancia, [dividaTol1, dividaTol2]) := by
    decide
  have h50 : ¬ (valorTotal [dividaTol1, dividaTol2] / ((reqTolerancia.parcelas : ℕ) : ℚ) < 50) := by
    norm_num [valorTotal, valorDivida, dividaTol1, dividaTol2, cem01_eq, reqTolerancia]
  rw [gerar_core_ok 9 0 hv h50]
  have habs : |(5001/100 : ℚ) * 4 - 20002/100| = 1/50 := by
    rw [show (5001/100 : ℚ) * 4 - 20002/100 = 1/50 by norm_num]
    rw [abs_of_nonneg]
    norm_num
  refine ⟨rfl, ?_, by rw [habs]; norm_num⟩
  norm_num [dbTolerancia, novoBoletoDoc, valorTotal, valorDivida, dividaTol1, dividaTol2,
    cem01_eq, reqTolerancia, round2_eq]

/-- C5: when the (otherwise valid) negotiate call computes an installment
below R$ 50.00 it fails reporting the unrounded installment and the maximum
feasible count `⌊valorTotal / 50⌋`; in particular a total of R$ 200.00 over
five installments fails with installment 40 and maximum count 4. -/
theorem gerar_boleto_parcela_minima :
    (∀ (req : GerarBoletoRequest) (db : DB) (novo_id : OId) (now : Int)
      (cliente : ClienteDoc) (dividas : List DividaDoc),
      gerar_valida req db = .ok (cliente, dividas) →
      0 ≤ valorTotal dividas →
      round2 (valorTotal dividas / (req.parcelas : ℚ)) < 50 →
      gerar_boleto req db novo_id now
        = (db, .error (.parcelaMuitoPequena (valorTotal dividas / (req.parcelas : ℚ))
            ⌊valorTotal dividas / 50⌋)))
    ∧ gerar_boleto reqPiso dbPiso 9 0
        = (dbPiso, .error (.parcelaMuitoPequena 40 4)) := by
  have base : ∀ (req : GerarBoletoRequest) (db : DB) (novo_id : OId) (now : Int)
      (cliente : ClienteDoc) (dividas : List DividaDoc),
      gerar_valida req db = .ok (cliente, dividas) →
      0 ≤ valorTotal dividas →
      round2 (valorTotal dividas / (req.parcelas : ℚ)) < 50 →
      gerar_boleto req db novo_id now
        = (db, .error (.parcelaMuitoPequena (valorTotal dividas / (req.parcelas : ℚ))
            ⌊valorTotal dividas / 50⌋)) := by
    intro req db novo_id now cliente dividas h hnn hr
    have h50 : valorTotal dividas / (req.parcelas : ℚ) < 50 := by
      by_contra hc
      exact absurd hr (not_lt.mpr (round2_ge_fifty (not_lt.mp hc)))
    rw [gerar_core_piso novo_id now h h50,
      py_int_of_nonneg (div_nonneg hnn (by norm_num))]
  refine ⟨base, ?_⟩
  have h := base reqPiso dbPiso 9 0 clientePiso [dividaPiso] (by decide)
    (by norm_num [valorTotal, valorDivida, dividaPiso])
    (by norm_num [valorTotal, valorDivida, dividaPiso, reqPiso, round2_eq])
  rw [h]
  norm_num [valorTotal, valorDivida, dividaPiso, reqPiso]

theorem gerar_boleto_parcela_minima_witness :
    gerar_boleto reqPiso dbPiso 9 0
      = (dbPiso, .error (.parcelaMuitoPequena
          (valorTotal [dividaPiso] / ((reqPiso.parcelas : ℕ) : ℚ))
          ⌊valorTotal [dividaPiso] / 50⌋)) :=
  gerar_boleto_parcela_minima.1 reqPiso dbPiso 9 0 clientePiso [dividaPiso] (by decide)
    (by norm_num [valorTotal, valorDivida, dividaPiso])
    (by norm_num [valorTotal, valorDivida, dividaPiso, reqPiso, round2_eq])

/-- C3: a successful cancellation rewrites exactly the debts referencing the
instrument, giving each the status `restaura_status` computed from the due
date and the cancellation instant alone (the prior status is not read), and
clears `boleto_id`; `restaura_status` yields ativo for a due date today or in
the future, vencido for 1..30 days overdue, inadimplente beyond 30 days. -/
theorem cancelar_boleto_restauracao :
    ∀ (db : DB) (bid : OId) (u : String) (now : Int) (db2 : DB)
      (resp : BoletoCanceladoResponse),
      cancelar_boleto db bid u now = (db2, .ok resp) →
      db2.dividas = db.dividas.map (fun d =>
        if d.boleto_id == some bid then
          { d with status := restaura_status now d.data_vencimento, boleto_id := none }
        else d)
      ∧ (∀ v : Int,
          (now ≤ v → restaura_status now (some v) = "ativo")
          ∧ (0 < now - v → now - v ≤ 30 → restaura_status now (some v) = "vencido")
          ∧ (30 < now - v → restaura_status now (some v) = "inadimplente"))
      ∧ restaura_status now none = "ativo" := by
  intro db bid u now db2 resp h
  refine ⟨?_, ?_, rfl⟩
  · unfold cancelar_boleto at h
    split at h
    · simp at h
    split at h
    · simp at h
    split at h
    · simp at h
    have hdb := congrArg Prod.fst h
    simp only at hdb
    rw [← hdb]
  · intro v
    refine ⟨?_, ?_, ?_⟩ <;> intros <;> simp only [restaura_status] <;>
      split_ifs <;> first | rfl | omega

theorem cancelar_boleto_restauracao_witness :
    dbCancelW2.dividas = dbCancelW.dividas.map (fun d =>
      if d.boleto_id == some 5 then
        { d with status := restaura_status 100 d.data_vencimento, boleto_id := none }
      else d) :=
  (cancelar_boleto_restauracao dbCancelW 5 "user" 100 dbCancelW2 respCancelW (by decide)).1

/-- C8: the cancellation precondition failures are exactly instrument not
found, instrument status in {pago, cancelado}, and no debt referencing the
instrument — each detected before any write, leaving the store unchanged. -/
theorem cancelar_boleto_precondicoes :
    ∀ (db : DB) (bid : OId) (u : String) (now : Int),
      (∀ e, (cancelar_boleto db bid u now).2 = .error e →
        (cancelar_boleto db bid u now).1 = db
        ∧ (e = .naoEncontrado
           ∨ (∃ s, e = .naoCancelavel s ∧ (s = "pago" ∨ s = "cancelado"))
           ∨ e = .nenhumaDividaAssociada))
      ∧ (db.boletos.find? (fun b => b.id == bid) = none →
          (cancelar_boleto db bid u now).2 = .error .naoEncontrado)
      ∧ (∀ b, db.boletos.find? (fun b2 => b2.id == bid) = some b →
          (b.status = "pago" ∨ b.status = "cancelado") →
          (cancelar_boleto db bid u now).2 = .error (.naoCancelavel b.status))
      ∧ (∀ b, db.boletos.find? (fun b2 => b2.id == bid) = some b →
          ¬ (b.status = "pago" ∨ b.status = "cancelado") →
          dividasAssociadas db bid = [] →
          (cancelar_boleto db bid u now).2 = .error .nenhumaDividaAssociada) := by
  intro db bid u now
  refine ⟨?_, ?_, ?_, ?_⟩
  · intro e he
    cases hfe : db.boletos.find? (fun b => b.id == bid) with
    | none =>
      simp only [cancelar_boleto, hfe] at he ⊢
      simp at he
      simp [he]
    | some b =>
      simp only [cancelar_boleto, hfe] at he ⊢
      by_cases hst : b.status = "pago" ∨ b.status = "cancelado"
      · rw [if_pos hst] at he ⊢
        simp at he
        exact ⟨rfl, Or.inr (Or.inl ⟨_, he.symm, hst⟩)⟩
      · rw [if_neg hst] at he ⊢
        by_cases hfil : dividasAssociadas db bid = []
        · rw [if_pos hfil] at he ⊢
          simp at he
          simp [he]
        · rw [if_neg hfil] at he ⊢
          simp at he
  · intro hf
    unfold cancelar_boleto
    rw [hf]
  · intro b hf hst
    unfold cancelar_boleto
    rw [hf]
    simp only [if_pos hst]
  · intro b hf hst hfil
    unfold cancelar_boleto
    rw [hf]
    simp only [if_neg hst, if_pos hfil]

theorem cancelar_boleto_precondicoes_witness :
    (cancelar_boleto dbCancelW 6 "u" 0).2 = .error .naoEncontrado :=
  (cancelar_boleto_precondicoes dbCancelW 6 "u" 0).2.1 (by decide)

end ApiConsultaV2
